import Mathlib

/-!
Shallow embedding, in Lean 4, of the three standalone plotting scripts of
this repository (`staggering.py`, `fission.py`, `deformations.py`), together
with proofs of the numeric and structural properties stated in the
specification.  Python floats are modelled as exact rationals (`ℚ`) where the
data is decimal and as real numbers (`ℝ`) where the formulas are continuous;
plotting calls are modelled by the data handed to them.
-/

namespace Staggering

/-- Total binding energies `B` in MeV for Sn (Z = 50) isotopes, exactly as
hard-coded in `staggering.py` (key = mass number `A`, value = `B(A)` in MeV).
Decimal literals are exact rationals. -/
def binding_energies_mev : List (Nat × ℚ) :=
  [ (108, 916.733),
    (109, 924.381),
    (110, 933.435),
    (111, 940.380),
    (112, 949.191),
    (113, 956.402),
    (114, 965.342),
    (115, 972.783),
    (116, 981.849),
    (117, 989.508),
    (118, 998.688),
    (119, 1006.554),
    (120, 1015.845),
    (121, 1023.905),
    (122, 1033.298),
    (123, 1041.540),
    (124, 1051.031),
    (125, 1058.913),
    (126, 1068.514),
    (127, 1076.436),
    (128, 1086.130),
    (129, 1094.167),
    (130, 1103.948),
    (131, 1112.083),
    (132, 1121.942) ]

/-- `sorted(binding_energies_mev.keys())`.  The keys already appear in
strictly increasing order in the source, so sorting is the identity here
(`all_a_strictly_increasing` below certifies this). -/
def all_a : List Nat := binding_energies_mev.map Prod.fst

/-- Association-list lookup: the first value stored under key `a`
(dictionary access on `binding_energies_mev`, whose keys are distinct). -/
def findB : List (Nat × ℚ) → Nat → Option ℚ
  | [], _ => none
  | (k, v) :: rest, a => if a = k then some v else findB rest a

/-- `a in binding_energies_mev` (dictionary membership test). -/
def memB (a : Nat) : Bool := (findB binding_energies_mev a).isSome

/-- `binding_energies_mev[a]` (dictionary access; total with default `0`,
only ever used at keys present in the table). -/
def lookupB (a : Nat) : ℚ := (findB binding_energies_mev a).getD 0

/-- The one-neutron separation-energy finite difference derivable from the
table: `S_n(A) = B(A) - B(A-1)`. -/
def S_n (a : Nat) : ℚ := lookupB a - lookupB (a - 1)

/-- One iteration of the `S_n` loop: if `(a - 1)` is in the table, append
`a` to `a_plot_sn` and `B(a) - B(a-1)` to `sn_plot`. -/
def snStep (acc : List Nat × List ℚ) (a : Nat) : List Nat × List ℚ :=
  if memB (a - 1) then (acc.1 ++ [a], acc.2 ++ [lookupB a - lookupB (a - 1)])
  else acc

/-- One iteration of the `S_2n` loop: if `(a - 2)` is in the table, append
`a` to `a_plot_s2n` and `B(a) - B(a-2)` to `s2n_plot`. -/
def s2nStep (acc : List Nat × List ℚ) (a : Nat) : List Nat × List ℚ :=
  if memB (a - 2) then (acc.1 ++ [a], acc.2 ++ [lookupB a - lookupB (a - 2)])
  else acc

/-- The `S_n` loop over `all_a[1:]`, starting from two empty lists. -/
def snState : List Nat × List ℚ := (all_a.drop 1).foldl snStep ([], [])

/-- The `S_2n` loop over `all_a[2:]`, starting from two empty lists. -/
def s2nState : List Nat × List ℚ := (all_a.drop 2).foldl s2nStep ([], [])

/-- The recorded mass numbers for `S_n`. -/
def a_plot_sn : List Nat := snState.1

/-- The recorded one-neutron separation energies `S_n(A) = B(A) - B(A-1)`. -/
def sn_plot : List ℚ := snState.2

/-- The recorded mass numbers for `S_2n`. -/
def a_plot_s2n : List Nat := s2nState.1

/-- The recorded two-neutron separation energies `S_2n(A) = B(A) - B(A-2)`. -/
def s2n_plot : List ℚ := s2nState.2

end Staggering

/-- `np.linspace(a, b, n)` with the endpoint included: the `n` values
`a + (b - a) * i / (n - 1)` for `i = 0, …, n-1`. -/
noncomputable def linspace (a b : ℝ) (n : Nat) : List ℝ :=
  (List.range n).map fun i : Nat => a + (b - a) * (i : ℝ) / ((n : ℝ) - 1)

namespace Fission

/-- Surface energy coefficient `a_s` (MeV), as hard-coded in `fission.py`. -/
noncomputable def A_S : ℝ := 18.0

/-- Coulomb energy coefficient `a_c` (MeV), as hard-coded in `fission.py`. -/
noncomputable def A_C : ℝ := 0.72

/-- The fixed mass number used for the plot. -/
noncomputable def FIXED_A : ℝ := 200

/-- The slope coefficient computed inside `calculate_delta_e`:
`K = A**(2/3) * ( (0.4 * a_s) - (0.2 * a_c * R) )`. -/
noncomputable def K (A R a_s a_c : ℝ) : ℝ :=
  A ^ ((2 : ℝ) / 3) * (0.4 * a_s - 0.2 * a_c * R)

/-- `calculate_delta_e(alpha_20_squared, A, R, a_s, a_c) = K * alpha_20_squared`. -/
noncomputable def calculate_delta_e (alpha_20_squared A R a_s a_c : ℝ) : ℝ :=
  K A R a_s a_c * alpha_20_squared

/-- One entry of the `R_ratios` list of `fission.py` (a dict with keys
`'R'` and `'label'`). -/
structure RatioEntry where
  R : ℝ
  label : String

/-- The four plotted stability ratios `R = Z^2/A`. -/
noncomputable def R_ratios : List RatioEntry :=
  [⟨15, "15"⟩, ⟨25, "25"⟩, ⟨35, "35"⟩, ⟨45, "45"⟩]

/-- `ALPHA_20_SQUARED_values = np.linspace(0, 0.5, 200)`. -/
noncomputable def ALPHA_20_SQUARED_values : List ℝ := linspace 0 0.5 200

/-- The `delta_e_values` array computed in one iteration of the plotting
loop, for the ratio `R` of that iteration. -/
noncomputable def delta_e_values (R : ℝ) : List ℝ :=
  ALPHA_20_SQUARED_values.map fun a => calculate_delta_e a FIXED_A R A_S A_C

end Fission

/-- Pointwise combination of three lists, truncating at the shortest
(the shape of `numpy` elementwise operations on three equal-shape arrays). -/
def zipWith3 {α β γ δ : Type} (f : α → β → γ → δ) : List α → List β → List γ → List δ
  | a :: as, b :: bs, c :: cs => f a b c :: zipWith3 f as bs cs
  | _, _, _ => []

namespace Deformations

/-- `theta = np.linspace(0, np.pi, 200)`. -/
noncomputable def theta : List ℝ := linspace 0 Real.pi 200

/-- `phi = np.linspace(0, 2*np.pi, 200)`. -/
noncomputable def phi : List ℝ := linspace 0 (2 * Real.pi) 200

/-- First component of `np.meshgrid(theta, phi)`: one row per entry of
`phi`, each row a copy of `theta`. -/
noncomputable def theta_grid : List (List ℝ) := phi.map fun _ => theta

/-- Second component of `np.meshgrid(theta, phi)`: one row per entry of
`phi`, the row for azimuthal value `p` holding `p` at every column. -/
noncomputable def phi_grid : List (List ℝ) := phi.map fun p => theta.map fun _ => p

/-- Deformation multipole order `l = 3`. -/
def l : Nat := 3

/-- Deformation multipole projection `m = 0`. -/
def m : Nat := 0

/-- Deformation strength `beta = 0.3`. -/
noncomputable def beta : ℝ := 0.3

/-- Reference radius `R0 = 1.0`. -/
noncomputable def R0 : ℝ := 1.0

/-- `np.real(scipy.special.sph_harm(m, l, phi, theta))` for `l = 3`,
`m = 0`: the real spherical harmonic
`Y_3^0(θ) = (1/4) √(7/π) (5 cos³θ − 3 cosθ)`, independent of the azimuthal
angle when `m = 0`. -/
noncomputable def Ylm_real (t _p : ℝ) : ℝ :=
  Real.sqrt (7 / Real.pi) / 4 * (5 * Real.cos t ^ 3 - 3 * Real.cos t)

/-- Elementwise combination of two 2-D grids. -/
def grid_map2 (f : ℝ → ℝ → ℝ) (A B : List (List ℝ)) : List (List ℝ) :=
  List.zipWith (List.zipWith f) A B

/-- Elementwise combination of three 2-D grids. -/
def grid_map3 (f : ℝ → ℝ → ℝ → ℝ) (A B C : List (List ℝ)) : List (List ℝ) :=
  zipWith3 (zipWith3 f) A B C

/-- `Ylm_real` evaluated on the meshgrid. -/
noncomputable def Ylm_real_grid : List (List ℝ) := grid_map2 Ylm_real theta_grid phi_grid

/-- Surface radius `R = R0 * (1 + beta * Ylm_real)` (elementwise). -/
noncomputable def R : List (List ℝ) :=
  Ylm_real_grid.map (List.map fun yv => R0 * (1 + beta * yv))

/-- `x = R * np.sin(theta) * np.cos(phi)` (elementwise). -/
noncomputable def x : List (List ℝ) :=
  grid_map3 (fun r t p => r * Real.sin t * Real.cos p) R theta_grid phi_grid

/-- `y = R * np.sin(theta) * np.sin(phi)` (elementwise). -/
noncomputable def y : List (List ℝ) :=
  grid_map3 (fun r t p => r * Real.sin t * Real.sin p) R theta_grid phi_grid

/-- `z = R * np.cos(theta)` (elementwise). -/
noncomputable def z : List (List ℝ) :=
  grid_map2 (fun r t => r * Real.cos t) R theta_grid

/-- The name of the file written by `plt.savefig`, built from the
deformation parameters: `f"octupole_Y{l}{m}.pdf"`. -/
def output_filename (lv mv : Nat) : String :=
  "octupole_Y" ++ toString lv ++ toString mv ++ ".pdf"

/-- The files the script saves: exactly the one `plt.savefig` call
(`plt.show()` is commented out). -/
def saved_files : List String := [output_filename l m]

/-- The row-length profile of a 2-D grid: a `200×200` grid has shape
`List.replicate 200 200`. -/
def gridShape (g : List (List ℝ)) : List Nat := g.map List.length

end Deformations

/-- The observable outcome of one run of `staggering.py`: the lines it
prints, whether `plot_separation_energies()` is invoked, and whether the
run aborts with an uncaught `ModuleNotFoundError` (a traceback, not a
clean exit). -/
structure ScriptRun where
  printed : List String
  plotted : Bool
  uncaught_import_error : Bool
deriving DecidableEq

/-- What running `staggering.py` does, as a function of whether the
`matplotlib` package can be imported.  Line 1 of the script imports
`matplotlib.pyplot` at module level: when matplotlib is absent this
raises `ModuleNotFoundError` before the `try/except` guard under the
main-module check (lines 110–118) is ever reached, so the run aborts
with an uncaught exception, printing none of the guidance lines.  When
matplotlib is present, the guard's own matplotlib import succeeds as
well and the `else` branch calls `plot_separation_energies()`. -/
def staggering_main (matplotlib_available : Bool) : ScriptRun :=
  if matplotlib_available then ⟨[], true, false⟩
  else ⟨[], false, true⟩

/-- The body of the `try/except` guard alone (`staggering.py` lines
110–118), as a function of whether its own matplotlib import succeeds:
the lines it prints and whether it calls `plot_separation_energies()`.
With matplotlib absent this code is unreachable, because the
module-level import at line 1 has already raised. -/
def staggering_main_guard (matplotlib_available : Bool) : List String × Bool :=
  if matplotlib_available then ([], true)
  else (["Matplotlib not found.", "Please install it using: pip install matplotlib"], false)

/-- `List.foldl` with an explicit fuel bound: `none` means the fuel ran out
before the list was exhausted.  Used to exhibit termination of the scripts'
loops with an explicit iteration budget. -/
def foldlFuel {α β : Type} (f : β → α → β) : Nat → β → List α → Option β
  | _, b, [] => some b
  | 0, _, _ :: _ => none
  | Nat.succ n, b, a :: as => foldlFuel f n (f b a) as

/-- The observable environment of a script run: everything a process could
read from the outside world.  None of the three scripts reads any of it. -/
structure ExternalWorld where
  stdin : List String
  argv : List String
  env : List (String × String)

/-- The arrays `staggering.py` computes and hands to its plotting calls. -/
def staggering_outputs (_w : ExternalWorld) :
    (List Nat × List ℚ) × (List Nat × List ℚ) :=
  (Staggering.snState, Staggering.s2nState)

/-- The arrays `fission.py` computes and hands to its plotting calls: one
`delta_e_values` array per plotted stability ratio. -/
noncomputable def fission_outputs (_w : ExternalWorld) : List (List ℝ) :=
  Fission.R_ratios.map fun rd => Fission.delta_e_values rd.R

/-- The surface arrays `deformations.py` computes and hands to
`plot_surface`. -/
noncomputable def deformations_outputs (_w : ExternalWorld) :
    List (List ℝ) × List (List ℝ) × List (List ℝ) × List (List ℝ) :=
  (Deformations.R, Deformations.x, Deformations.y, Deformations.z)

theorem all_a_strictly_increasing : List.Pairwise (· < ·) Staggering.all_a := by decide

/-- C1: for every mass number `A` of the table whose predecessor `A-1`
(resp. `A-2`) is also in the table, the script records exactly the pair
`(A, B(A) - B(A-1))` (resp. `(A, B(A) - B(A-2))`), and records nothing
else: the recorded `(A, S)` pairs are exactly the finite differences
derivable from the hard-coded table. -/
theorem C1_separation_energies_exact :
    Staggering.a_plot_sn.zip Staggering.sn_plot
      = Staggering.all_a.filterMap (fun a =>
          if Staggering.memB (a - 1) then
            some (a, Staggering.lookupB a - Staggering.lookupB (a - 1))
          else none)
    ∧ Staggering.a_plot_s2n.zip Staggering.s2n_plot
      = Staggering.all_a.filterMap (fun a =>
          if Staggering.memB (a - 2) then
            some (a, Staggering.lookupB a - Staggering.lookupB (a - 2))
          else none) := by
  constructor <;>
    simp +decide [Staggering.a_plot_sn, Staggering.sn_plot, Staggering.a_plot_s2n,
      Staggering.s2n_plot, Staggering.snState, Staggering.s2nState, Staggering.snStep,
      Staggering.s2nStep, Staggering.all_a, Staggering.binding_energies_mev,
      Staggering.memB, Staggering.lookupB, Staggering.findB, List.filterMap]

theorem linspace_length (a b : ℝ) (n : Nat) : (linspace a b n).length = n := by
  simp [linspace]

/-- C2: the deformation energy vanishes at zero deformation:
`calculate_delta_e(0, A, R, a_s, a_c) = 0` for every `A`, `R`, `a_s`, `a_c`,
and in particular at the fixed parameters for each of the four plotted
stability ratios. -/
theorem C2_delta_e_zero_at_zero_deformation :
    (∀ A R a_s a_c : ℝ, Fission.calculate_delta_e 0 A R a_s a_c = 0)
    ∧ Fission.R_ratios.map
        (fun rd => Fission.calculate_delta_e 0 Fission.FIXED_A rd.R Fission.A_S Fission.A_C)
      = List.replicate 4 0 := by
  refine ⟨fun A R a_s a_c => ?_, ?_⟩
  · simp [Fission.calculate_delta_e]
  · simp [Fission.R_ratios, Fission.calculate_delta_e, List.replicate]

/-- For a linear map `α ↦ c * α` on `ℝ`, strict monotonicity is equivalent
to a strictly positive slope. -/
theorem strictMono_mul_left_iff_pos (c : ℝ) :
    StrictMono (fun α : ℝ => c * α) ↔ 0 < c := by
  constructor
  · intro h
    simpa using h (show (0 : ℝ) < 1 by norm_num)
  · intro hc a b hab
    simpa using mul_lt_mul_of_pos_left hab hc

/-- C10: with the fixed coefficients `a_s = 18.0`, `a_c = 0.72` and
`A = 200`, the deformation energy is strictly increasing in
`alpha_20_squared` exactly when `R < 50`; the slope `K` vanishes at
`R = 50`; and for each of the four plotted ratios (15, 25, 35, 45) the
plotted curve is strictly increasing (no negative slope). -/
theorem C10_slope_positive_iff_R_lt_50 :
    (∀ R : ℝ,
      StrictMono (fun α => Fission.calculate_delta_e α Fission.FIXED_A R Fission.A_S Fission.A_C)
        ↔ R < 50)
    ∧ Fission.K Fission.FIXED_A 50 Fission.A_S Fission.A_C = 0
    ∧ ∀ rd ∈ Fission.R_ratios,
        StrictMono
          (fun α => Fission.calculate_delta_e α Fission.FIXED_A rd.R Fission.A_S Fission.A_C) := by
  have hp : (0 : ℝ) < (200 : ℝ) ^ ((2 : ℝ) / 3) :=
    Real.rpow_pos_of_pos (by norm_num) _
  have hiff : ∀ R : ℝ,
      StrictMono (fun α => Fission.calculate_delta_e α Fission.FIXED_A R Fission.A_S Fission.A_C)
        ↔ R < 50 := by
    intro R
    have h1 : (fun α => Fission.calculate_delta_e α Fission.FIXED_A R Fission.A_S Fission.A_C)
        = fun α : ℝ => Fission.K Fission.FIXED_A R Fission.A_S Fission.A_C * α := rfl
    rw [h1, strictMono_mul_left_iff_pos]
    unfold Fission.K Fission.FIXED_A Fission.A_S Fission.A_C
    rw [mul_pos_iff_of_pos_left hp]
    constructor <;> intro h <;> nlinarith
  refine ⟨hiff, ?_, ?_⟩
  · unfold Fission.K Fission.FIXED_A Fission.A_S Fission.A_C
    norm_num
  · intro rd hrd
    rw [hiff rd.R]
    fin_cases hrd <;> norm_num

/-- Witness for `C10_slope_positive_iff_R_lt_50`: the curve for the first
plotted ratio, `R = 15`, is strictly increasing. -/
theorem C10_witness :
    StrictMono
      (fun α => Fission.calculate_delta_e α Fission.FIXED_A
        (Fission.RatioEntry.mk 15 "15").R Fission.A_S Fission.A_C) :=
  C10_slope_positive_iff_R_lt_50.2.2 ⟨15, "15"⟩
    (by simp [Fission.R_ratios])

theorem zipWith3_length {α β γ δ : Type} (f : α → β → γ → δ) :
    ∀ (as : List α) (bs : List β) (cs : List γ),
      (zipWith3 f as bs cs).length = min as.length (min bs.length cs.length) := by
  intro as
  induction as with
  | nil => intro bs cs; simp [zipWith3]
  | cons a as ih =>
    intro bs cs
    cases bs with
    | nil => simp [zipWith3]
    | cons b bs =>
      cases cs with
      | nil => simp [zipWith3]
      | cons c cs =>
        simp only [zipWith3, List.length_cons, ih]
        omega

theorem gridShape_grid_map2 (f : ℝ → ℝ → ℝ) :
    ∀ (n k : Nat) (A B : List (List ℝ)),
      Deformations.gridShape A = List.replicate n k →
      Deformations.gridShape B = List.replicate n k →
      Deformations.gridShape (Deformations.grid_map2 f A B) = List.replicate n k := by
  intro n
  induction n with
  | zero =>
    intro k A B hA _hB
    cases A with
    | nil => simp [Deformations.grid_map2, Deformations.gridShape]
    | cons a as => simp [Deformations.gridShape] at hA
  | succ n ih =>
    intro k A B hA hB
    cases A with
    | nil => simp [Deformations.gridShape] at hA
    | cons a as =>
      cases B with
      | nil => simp [Deformations.gridShape] at hB
      | cons b bs =>
        simp only [Deformations.gridShape, List.map_cons, List.replicate_succ,
          List.cons.injEq] at hA hB
        obtain ⟨ha, hA'⟩ := hA
        obtain ⟨hb, hB'⟩ := hB
        simp only [Deformations.grid_map2, List.zipWith_cons_cons, Deformations.gridShape,
          List.map_cons, List.replicate_succ, List.cons.injEq, List.length_zipWith]
        exact ⟨by rw [ha, hb, min_self], ih k as bs hA' hB'⟩

theorem gridShape_grid_map3 (f : ℝ → ℝ → ℝ → ℝ) :
    ∀ (n k : Nat) (A B C : List (List ℝ)),
      Deformations.gridShape A = List.replicate n k →
      Deformations.gridShape B = List.replicate n k →
      Deformations.gridShape C = List.replicate n k →
      Deformations.gridShape (Deformations.grid_map3 f A B C) = List.replicate n k := by
  intro n
  induction n with
  | zero =>
    intro k A B C hA _hB _hC
    cases A with
    | nil => simp [Deformations.grid_map3, zipWith3, Deformations.gridShape]
    | cons a as => simp [Deformations.gridShape] at hA
  | succ n ih =>
    intro k A B C hA hB hC
    cases A with
    | nil => simp [Deformations.gridShape] at hA
    | cons a as =>
      cases B with
      | nil => simp [Deformations.gridShape] at hB
      | cons b bs =>
        cases C with
        | nil => simp [Deformations.gridShape] at hC
        | cons c cs =>
          simp only [Deformations.gridShape, List.map_cons, List.replicate_succ,
            List.cons.injEq] at hA hB hC
          obtain ⟨ha, hA'⟩ := hA
          obtain ⟨hb, hB'⟩ := hB
          obtain ⟨hc, hC'⟩ := hC
          simp only [Deformations.grid_map3, zipWith3, Deformations.gridShape,
            List.map_cons, List.replicate_succ, List.cons.injEq, zipWith3_length]
          exact ⟨by rw [ha, hb, hc]; omega, ih k as bs cs hA' hB' hC'⟩

theorem gridShape_map_rows (g : ℝ → ℝ) (A : List (List ℝ)) :
    Deformations.gridShape (A.map (List.map g)) = Deformations.gridShape A := by
  simp [Deformations.gridShape, List.map_map, Function.comp]

theorem theta_length : Deformations.theta.length = 200 := linspace_length _ _ _

theorem phi_length : Deformations.phi.length = 200 := linspace_length _ _ _

theorem theta_grid_shape :
    Deformations.gridShape Deformations.theta_grid = List.replicate 200 200 := by
  simp only [Deformations.gridShape, Deformations.theta_grid, List.map_map,
    Function.comp_def, List.map_const', List.map_replicate, theta_length, phi_length]

theorem phi_grid_shape :
    Deformations.gridShape Deformations.phi_grid = List.replicate 200 200 := by
  simp only [Deformations.gridShape, Deformations.phi_grid, List.map_map,
    Function.comp_def, List.length_map, List.map_const', List.map_replicate,
    List.length_replicate, theta_length, phi_length]

theorem Ylm_real_grid_shape :
    Deformations.gridShape Deformations.Ylm_real_grid = List.replicate 200 200 :=
  gridShape_grid_map2 _ 200 200 _ _ theta_grid_shape phi_grid_shape

theorem R_shape :
    Deformations.gridShape Deformations.R = List.replicate 200 200 := by
  rw [Deformations.R, gridShape_map_rows]
  exact Ylm_real_grid_shape

/-- C5: the deformation script saves exactly one file, a PDF whose name is
built from the deformation parameters `l` and `m`; with `l = 3`, `m = 0`
that name is `octupole_Y30.pdf`. -/
theorem C5_single_pdf_named_from_parameters :
    Deformations.saved_files
      = [Deformations.output_filename Deformations.l Deformations.m]
    ∧ Deformations.saved_files.length = 1
    ∧ Deformations.output_filename Deformations.l Deformations.m = "octupole_Y30.pdf" := by
  refine ⟨rfl, rfl, ?_⟩
  decide

/-- C6: every derived array has the shape of the grid it came from: in the
deformation script `R`, `x`, `y`, `z` all share the 200×200 shape of the
`theta`/`phi` meshgrid; in the fission script `delta_e_values` has the same
length (200) as `ALPHA_20_SQUARED_values`; in the separation-energy script
`a_plot_sn` and `sn_plot` have equal lengths, as do `a_plot_s2n` and
`s2n_plot`. -/
theorem C6_derived_array_shapes_match :
    (Deformations.gridShape Deformations.theta_grid = List.replicate 200 200
      ∧ Deformations.gridShape Deformations.phi_grid = List.replicate 200 200
      ∧ Deformations.gridShape Deformations.R = List.replicate 200 200
      ∧ Deformations.gridShape Deformations.x = List.replicate 200 200
      ∧ Deformations.gridShape Deformations.y = List.replicate 200 200
      ∧ Deformations.gridShape Deformations.z = List.replicate 200 200)
    ∧ (∀ R : ℝ,
        (Fission.delta_e_values R).length = Fission.ALPHA_20_SQUARED_values.length
          ∧ Fission.ALPHA_20_SQUARED_values.length = 200)
    ∧ Staggering.a_plot_sn.length = Staggering.sn_plot.length
    ∧ Staggering.a_plot_s2n.length = Staggering.s2n_plot.length := by
  refine ⟨⟨theta_grid_shape, phi_grid_shape, R_shape, ?_, ?_, ?_⟩, fun R => ⟨?_, ?_⟩, ?_, ?_⟩
  · exact gridShape_grid_map3 _ 200 200 _ _ _ R_shape theta_grid_shape phi_grid_shape
  · exact gridShape_grid_map3 _ 200 200 _ _ _ R_shape theta_grid_shape phi_grid_shape
  · exact gridShape_grid_map2 _ 200 200 _ _ R_shape theta_grid_shape
  · simp [Fission.delta_e_values]
  · exact linspace_length _ _ _
  · decide
  · decide

theorem foldlFuel_eq_foldl {α β : Type} (f : β → α → β) :
    ∀ (l : List α) (b : β), foldlFuel f l.length b l = some (l.foldl f b) := by
  intro l
  induction l with
  | nil => intro b; rfl
  | cons a as ih =>
    intro b
    simpa [foldlFuel] using ih (f b a)

/-- C3 (code bug): with matplotlib absent, the module-level import at
line 1 of `staggering.py` aborts the run with an uncaught
`ModuleNotFoundError` before the `__main__` guard executes — nothing is
printed and the exit is not clean, contrary to the claim; the plotting
function is indeed never invoked; and the guidance lines the claim
describes exist only in the unreachable guard body. -/
theorem C3_module_import_aborts_before_guard :
    (staggering_main false).uncaught_import_error = true
    ∧ (staggering_main false).printed = []
    ∧ (staggering_main false).plotted = false
    ∧ (staggering_main_guard false).1
      = ["Matplotlib not found.", "Please install it using: pip install matplotlib"]
    ∧ (staggering_main_guard false).2 = false := ⟨rfl, rfl, rfl, rfl, rfl⟩

/-- C7: each script's loops range over fixed finite collections (the
25-entry binding-energy table, the four stability ratios, the 200-point
grids), and a fold with fuel equal to the length of the list it consumes
always terminates with a result — in particular both separation-energy
loops do so at their concrete inputs. -/
theorem C7_loops_terminate :
    (∀ (α β : Type) (f : β → α → β) (b : β) (l : List α),
        foldlFuel f l.length b l = some (l.foldl f b))
    ∧ Staggering.all_a.length = 25
    ∧ Fission.R_ratios.length = 4
    ∧ Fission.ALPHA_20_SQUARED_values.length = 200
    ∧ Deformations.theta.length = 200
    ∧ Deformations.phi.length = 200
    ∧ foldlFuel Staggering.snStep (Staggering.all_a.drop 1).length ([], [])
        (Staggering.all_a.drop 1) = some Staggering.snState
    ∧ foldlFuel Staggering.s2nStep (Staggering.all_a.drop 2).length ([], [])
        (Staggering.all_a.drop 2) = some Staggering.s2nState := by
  refine ⟨fun α β f b l => foldlFuel_eq_foldl f l b, by decide, by simp [Fission.R_ratios],
    linspace_length _ _ _, theta_length, phi_length, ?_, ?_⟩
  · exact foldlFuel_eq_foldl _ _ _
  · exact foldlFuel_eq_foldl _ _ _

/-- C8: no script reads any external input, so the computed arrays are the
same on any two executions: the outputs are constant functions of the
external world, determined solely by the hard-coded constants and tables. -/
theorem C8_outputs_deterministic :
    ∀ w w' : ExternalWorld,
      staggering_outputs w = staggering_outputs w'
      ∧ fission_outputs w = fission_outputs w'
      ∧ deformations_outputs w = deformations_outputs w' :=
  fun _ _ => ⟨rfl, rfl, rfl⟩

set_option maxHeartbeats 2000000 in
/-- C9: every recorded two-neutron separation energy satisfies the
finite-difference chain identity `S_2n(A) = S_n(A) + S_n(A-1)` (with
`A-1` and `A-2` both in the table); the hard-coded binding energies are
strictly increasing in `A`; and every recorded `S_n` and `S_2n` value is
strictly positive. -/
theorem C9_chain_identity_and_positivity :
    (∀ p ∈ Staggering.a_plot_s2n.zip Staggering.s2n_plot,
        p.2 = Staggering.S_n p.1 + Staggering.S_n (p.1 - 1)
        ∧ Staggering.memB (p.1 - 1) = true ∧ Staggering.memB (p.1 - 2) = true)
    ∧ List.Chain' (· < ·) (Staggering.all_a.map Staggering.lookupB)
    ∧ (∀ s ∈ Staggering.sn_plot, 0 < s)
    ∧ (∀ s ∈ Staggering.s2n_plot, 0 < s) := by
  refine ⟨?_, ?_, ?_, ?_⟩
  · norm_num +decide [Staggering.a_plot_s2n, Staggering.s2n_plot, Staggering.s2nState,
      Staggering.s2nStep, Staggering.all_a, Staggering.binding_energies_mev,
      Staggering.memB, Staggering.lookupB, Staggering.findB, Staggering.S_n,
      List.forall_mem_cons]
  · norm_num +decide [Staggering.all_a, Staggering.binding_energies_mev,
      Staggering.lookupB, Staggering.findB, List.chain'_cons]
  · norm_num +decide [Staggering.sn_plot, Staggering.snState, Staggering.snStep,
      Staggering.all_a, Staggering.binding_energies_mev, Staggering.memB,
      Staggering.lookupB, Staggering.findB, List.forall_mem_cons]
  · norm_num +decide [Staggering.s2n_plot, Staggering.s2nState, Staggering.s2nStep,
      Staggering.all_a, Staggering.binding_energies_mev, Staggering.memB,
      Staggering.lookupB, Staggering.findB, List.forall_mem_cons]

set_option maxHeartbeats 2000000 in
/-- Witness for `C9_chain_identity_and_positivity`: instantiated at the
first recorded `S_2n` entry and the first recorded `S_n` value. -/
theorem C9_witness :
    ((110, Staggering.lookupB 110 - Staggering.lookupB 108).2
        = Staggering.S_n 110 + Staggering.S_n 109
      ∧ Staggering.memB 109 = true ∧ Staggering.memB 108 = true)
    ∧ 0 < Staggering.lookupB 109 - Staggering.lookupB 108 := by
  constructor
  · exact (C9_chain_identity_and_positivity.1 (110, Staggering.lookupB 110 - Staggering.lookupB 108)
      (by simp +decide [Staggering.a_plot_s2n, Staggering.s2n_plot, Staggering.s2nState,
        Staggering.s2nStep, Staggering.all_a, Staggering.binding_energies_mev,
        Staggering.memB, Staggering.lookupB, Staggering.findB]))
  · exact (C9_chain_identity_and_positivity.2.2.1 (Staggering.lookupB 109 - Staggering.lookupB 108)
      (by simp +decide [Staggering.sn_plot, Staggering.snState, Staggering.snStep,
        Staggering.all_a, Staggering.binding_energies_mev, Staggering.memB,
        Staggering.lookupB, Staggering.findB]))
